import Mathlib

/-!
Shallow embedding of the core of `src/app.py` (Lookalike celebrity face
recognition app): the representative-image locator `find_actor_image`,
the database builder `process_celebrity_directory`, and the similarity
ranker `find_celebrity_matches`, together with the process-wide state
(`celebrity_database`, `processing_status`).

Modelling choices:
* Paths are lists of components (`List String`); `str(path)` is the
  components joined with `/`.
* The filesystem seen by one call is a pure tree (`FSEntry` / `FSList`,
  a mutual inductive so that the traversals are structural), so
  `Path.exists`, `Path.is_file`, `os.walk` and `Path.iterdir` become
  recursion over the tree in listing order.
* The external face-recognition library (`extract_face_embedding`, which
  catches its own exceptions and returns `None` both on no-face and on
  extraction failure, app.py:64-85) is an oracle parameter
  `extract : List String → Option Embedding`; embeddings are lists of
  rationals.
* `np.linalg.norm`, an external numeric routine, is an oracle parameter
  `distFn`; everything `find_celebrity_matches` itself does with the
  distance (score formula, sorting, truncation) is embedded exactly.
* The global dict mutations are made explicit by threading an `AppState`
  through the two stateful functions.
* An exception raised by the directory iteration mid-walk (the only way
  to reach the `except Exception` handler at app.py:150 after validation,
  since the locator is read-only and the extractor swallows its errors)
  is modelled by the `interrupt` field of `RootFS.dir`: the iterator
  yields `entries` and then raises with the given message.
-/

namespace Lookalike

/-- A face embedding: fixed-length numeric vector (numbers as `ℚ`). -/
abbrev Embedding := List ℚ

/-- One value of `celebrity_database`: app.py:130-133. -/
structure CelebRecord where
  embedding : Embedding
  image_path : String
deriving DecidableEq, Repr

/-- The global `celebrity_database` dict (app.py:28): insertion-ordered
mapping from actor name to record. -/
abbrev Database := List (String × CelebRecord)

/-- The global `processing_status` dict (app.py:29). -/
structure ProcessingStatus where
  is_processing : Bool
  message : String
deriving DecidableEq, Repr

/-- The process-wide mutable state of app.py lines 28-29. -/
structure AppState where
  celebrity_database : Database
  processing_status : ProcessingStatus
deriving DecidableEq, Repr

mutual
/-- A filesystem entry: a plain file or a directory with children in
listing order. -/
inductive FSEntry where
  | file (name : String)
  | dir (name : String) (children : FSList)

/-- The children of a directory, in listing order. -/
inductive FSList where
  | nil
  | cons (e : FSEntry) (rest : FSList)
end

/-- Build an `FSList` from a plain list of entries. -/
def fsList : List FSEntry → FSList
  | [] => .nil
  | e :: rest => .cons e (fsList rest)

/-- What the builder's argument path resolves to: missing, a
non-directory, or a directory whose iteration yields `entries` and then,
when `interrupt = some msg`, raises an exception with message `msg`
(reaching the handler at app.py:150). -/
inductive RootFS where
  | missing
  | notDir
  | dir (entries : List FSEntry) (interrupt : Option String)

/-- Python `str.endswith(suffix)` over the character sequences: the
suffix check of app.py:56. -/
def endswith (s suf : String) : Bool :=
  List.isSuffixOf suf.data s.data

/-- Names of the plain files among `es`, in listing order (the `files`
component of one `os.walk` triple). -/
def fileNames : FSList → List String
  | .nil => []
  | .cons (.file n) rest => n :: fileNames rest
  | .cons (.dir _ _) rest => fileNames rest

/-- The recursive part of `os.walk`: visits the subdirectories among
`es` in listing order, depth first, recording for each visited directory
its path and its file names. -/
def walkList (path : List String) (es : FSList) :
    List (List String × List String) :=
  match es with
  | .nil => []
  | .cons (.file _) rest => walkList path rest
  | .cons (.dir n cs) rest =>
      ((path ++ [n], fileNames cs) :: walkList (path ++ [n]) cs)
        ++ walkList path rest
termination_by structural es

/-- `os.walk(path)` (top-down) over a directory with children `children`
located at `path` (app.py:54): the root's triple first, then each
subdirectory's walk in listing order. -/
def walkFrom (path : List String) (children : FSList) :
    List (List String × List String) :=
  (path, fileNames children) :: walkList path children

/-- `(actor_path / "folder.jpg").exists() and (actor_path / "folder.jpg").is_file()`
(app.py:48-49): a plain file literally named `folder.jpg` sits directly
among `children`. -/
def hasFolderJpg : FSList → Bool
  | .nil => false
  | .cons (.file n) rest => n == "folder.jpg" || hasFolderJpg rest
  | .cons (.dir _ _) rest => hasFolderJpg rest

/-- `find_actor_image` (app.py:39-62): return `folder.jpg` from the
actor's main folder when present, else the first `*-poster.jpg` file met
by `os.walk`, else none. -/
def find_actor_image (actorPath : List String) (children : FSList) :
    Option (List String) :=
  if hasFolderJpg children then
    some (actorPath ++ ["folder.jpg"])
  else
    (walkFrom actorPath children).findSome? fun pr =>
      (pr.2.find? fun f => endswith f "-poster.jpg").map fun f => pr.1 ++ [f]

/-- `celebrity_database[actor_name] = ...` (app.py:130): Python dict
assignment keeps the position of an existing key and appends a new one. -/
def dictInsert (db : Database) (k : String) (v : CelebRecord) : Database :=
  if db.any fun p => p.1 == k then
    db.map fun p => if p.1 == k then (k, v) else p
  else db ++ [(k, v)]

/-- The loop-carried state of the builder walk: the database being
filled, the two counters, and the last progress message written. -/
structure BuildAcc where
  db : Database
  processed_count : Nat
  skipped_count : Nat
  message : String
deriving DecidableEq, Repr

/-- One iteration of the builder loop (app.py:111-138): non-directories
are skipped silently; otherwise locate the image, extract the embedding,
and either insert a record or count a skip. -/
def processActor (rootPath : List String)
    (extract : List String → Option Embedding)
    (acc : BuildAcc) (e : FSEntry) : BuildAcc :=
  match e with
  | .file _ => acc
  | .dir actor_name cs =>
    let acc := { acc with message := "Processing " ++ actor_name ++ "..." }
    match find_actor_image (rootPath ++ [actor_name]) cs with
    | none => { acc with skipped_count := acc.skipped_count + 1 }
    | some image_path =>
      match extract image_path with
      | none => { acc with skipped_count := acc.skipped_count + 1 }
      | some emb =>
        { acc with
            db := dictInsert acc.db actor_name
              ⟨emb, String.intercalate "/" image_path⟩,
            processed_count := acc.processed_count + 1 }

/-- The builder walk over the directory entries yielded so far, starting
from the cleared database and zeroed counters (app.py:106-138). -/
def buildEntries (rootPath : List String)
    (extract : List String → Option Embedding)
    (entries : List FSEntry) : BuildAcc :=
  entries.foldl (processActor rootPath extract)
    ⟨[], 0, 0, "Starting directory processing..."⟩

/-- The value returned by `process_celebrity_directory`: either the
success dict of app.py:143-148 or the error dict of app.py:101/104/155. -/
inductive RebuildOutcome where
  | ok (processed_count skipped_count total_celebrities : Nat)
  | err (msg : String)
deriving DecidableEq, Repr

/-- `process_celebrity_directory` (app.py:87-155). Note the order in the
source: `processing_status` is set to busy (lines 95-96) before the
existence and directory checks (lines 100-104), and the early error
returns do not restore it. -/
def process_celebrity_directory (rootPath : List String) (fs : RootFS)
    (extract : List String → Option Embedding) (st : AppState) :
    RebuildOutcome × AppState :=
  let st1 : AppState :=
    { st with processing_status := ⟨true, "Starting directory processing..."⟩ }
  match fs with
  | .missing => (.err "Directory does not exist", st1)
  | .notDir => (.err "Path is not a directory", st1)
  | .dir entries interrupt =>
    let acc := buildEntries rootPath extract entries
    match interrupt with
    | some msg =>
      (.err msg,
        { celebrity_database := acc.db,
          processing_status := ⟨false, "Error: " ++ msg⟩ })
    | none =>
      (.ok acc.processed_count acc.skipped_count acc.db.length,
        { celebrity_database := acc.db,
          processing_status :=
            ⟨false, "Processing complete! " ++ toString acc.processed_count ++
              " celebrities processed, " ++ toString acc.skipped_count ++
              " skipped."⟩ })

/-- `max(0, 100 - (distance * 100))` (app.py:183). -/
def similarity_score (d : ℚ) : ℚ := max 0 (100 - d * 100)

/-- One element of the list returned by `find_celebrity_matches`
(app.py:180-185). -/
structure MatchResult where
  name : String
  distance : ℚ
  similarity_score : ℚ
  image_path : String
deriving DecidableEq, Repr

/-- Message of the `ValueError` at app.py:163. -/
def emptyDatabaseMsg : String :=
  "Celebrity database is empty. Please process a directory first."

/-- Message of the `ValueError` at app.py:169. -/
def noFaceMsg : String := "No face found in the uploaded image."

/-- `find_celebrity_matches` (app.py:157-189): empty-database check,
query extraction, one `MatchResult` per database entry, stable sort by
ascending distance, truncation to `top_k`. The raised `ValueError`s are
the `Except.error` cases; the state is threaded to make explicit that
the function only reads the globals. -/
def find_celebrity_matches (distFn : Embedding → Embedding → ℚ)
    (extract : String → Option Embedding) (st : AppState)
    (target_image_path : String) (top_k : Nat) :
    Except String (List MatchResult) × AppState :=
  if st.celebrity_database.isEmpty then
    (.error emptyDatabaseMsg, st)
  else
    match extract target_image_path with
    | none => (.error noFaceMsg, st)
    | some target_embedding =>
      let similarities := st.celebrity_database.map fun pr =>
        let d := distFn target_embedding pr.2.embedding
        MatchResult.mk pr.1 d (similarity_score d) pr.2.image_path
      (.ok ((similarities.mergeSort
        fun a b => decide (a.distance ≤ b.distance)).take top_k), st)

/-- All (directory path, file name) pairs met by `os.walk`, in encounter
order: the flattening of the walk's nested file loop. -/
def walkFilePairs (path : List String) (children : FSList) :
    List (List String × String) :=
  (walkFrom path children).flatMap fun pr => pr.2.map fun f => (pr.1, f)

/-- The `*-poster.jpg` candidates of the subtree, in walk encounter
order. -/
def posterFiles (path : List String) (children : FSList) :
    List (List String × String) :=
  (walkFilePairs path children).filter fun x => endswith x.2 "-poster.jpg"

/-- The extractor used by the C6 scenario: identity `A`'s located image
yields an embedding, identity `B`'s yields no face. -/
def demoExtract : List String → Option Embedding := fun p =>
  if p = ["celebs", "A", "folder.jpg"] then some [1, 0] else none

/-! ## Theorems about the claims -/

/-- C1: the claim says an invalid rebuild path causes a fail-fast with no
state mutation at all. The database is indeed untouched, but the source
sets `processing_status` to busy with the starting message (app.py:95-96)
before validating (app.py:100-104), and the early error returns leave it
that way: evaluated at a missing path from an idle state, the call
returns the error yet the status has been clobbered (busy = true). -/
theorem C1_invalid_path_clobbers_status :
    process_celebrity_directory ["root"] .missing (fun _ => none)
      ⟨[("X", ⟨[1], "p"⟩)], ⟨false, "idle"⟩⟩
    = (.err "Directory does not exist",
        ⟨[("X", ⟨[1], "p"⟩)],
          ⟨true, "Starting directory processing..."⟩⟩) := rfl

/-- C3: on an empty database, `find_celebrity_matches` fails with the
empty-database `ValueError` and never returns a success result. -/
theorem C3_empty_db_raises (distFn : Embedding → Embedding → ℚ)
    (extract : String → Option Embedding) (st : AppState)
    (q : String) (k : Nat) (h : st.celebrity_database = []) :
    (find_celebrity_matches distFn extract st q k).1 = .error emptyDatabaseMsg ∧
    ∀ l, (find_celebrity_matches distFn extract st q k).1 ≠ .ok l := by
  have hres : (find_celebrity_matches distFn extract st q k).1
      = .error emptyDatabaseMsg := by
    simp [find_celebrity_matches, h]
  refine ⟨hres, fun l hl => ?_⟩
  rw [hres] at hl
  cases hl

/-- Witness for C3 at a concrete empty state. -/
theorem C3_empty_db_raises_witness :
    (find_celebrity_matches (fun _ _ => 0) (fun _ => some [1])
      ⟨[], ⟨false, ""⟩⟩ "q.jpg" 10).1 = .error emptyDatabaseMsg :=
  (C3_empty_db_raises (fun _ _ => 0) (fun _ => some [1])
    ⟨[], ⟨false, ""⟩⟩ "q.jpg" 10 rfl).1

/-- C10: the empty-database check (app.py:162) precedes query face
extraction (app.py:166), so with an empty database the call fails with
the empty-database error — never the no-face error — whatever the
extractor would return, including `none`. -/
theorem C10_empty_check_precedes_extraction
    (distFn : Embedding → Embedding → ℚ)
    (extract : String → Option Embedding) (st : AppState)
    (q : String) (k : Nat) (h : st.celebrity_database = []) :
    (find_celebrity_matches distFn extract st q k).1 = .error emptyDatabaseMsg ∧
    (find_celebrity_matches distFn extract st q k).1 ≠ .error noFaceMsg := by
  have hres : (find_celebrity_matches distFn extract st q k).1
      = .error emptyDatabaseMsg := by
    simp [find_celebrity_matches, h]
  refine ⟨hres, fun hc => ?_⟩
  rw [hres] at hc
  have : emptyDatabaseMsg = noFaceMsg := by injection hc
  exact absurd this (by decide)

/-- Witness for C10: a query in which no face is detectable
(`extract` returns `none`), against an empty database. -/
theorem C10_empty_check_precedes_extraction_witness :
    (find_celebrity_matches (fun _ _ => 0) (fun _ => none)
      ⟨[], ⟨false, ""⟩⟩ "q.jpg" 10).1 = .error emptyDatabaseMsg ∧
    (find_celebrity_matches (fun _ _ => 0) (fun _ => none)
      ⟨[], ⟨false, ""⟩⟩ "q.jpg" 10).1 ≠ .error noFaceMsg :=
  C10_empty_check_precedes_extraction (fun _ _ => 0) (fun _ => none)
    ⟨[], ⟨false, ""⟩⟩ "q.jpg" 10 rfl

/-- C9: `find_celebrity_matches` only reads the globals; on every branch
(success, empty database, no face) the state it returns is the state it
was given. -/
theorem C9_rank_is_read_only (distFn : Embedding → Embedding → ℚ)
    (extract : String → Option Embedding) (st : AppState)
    (q : String) (k : Nat) :
    (find_celebrity_matches distFn extract st q k).2 = st := by
  unfold find_celebrity_matches
  split
  · rfl
  · split <;> rfl

/-- C6: rebuilding over a root with `A` (valid face), `B` (no detectable
face), `C` (no representative image) yields `processed_count = 1`,
`skipped_count = 2`, `total_celebrities = 1`, and the database holds
exactly `A`'s record. -/
theorem C6_mixed_rebuild_counts :
    process_celebrity_directory ["celebs"]
      (.dir [ .dir "A" (fsList [.file "folder.jpg"]),
              .dir "B" (fsList [.file "folder.jpg"]),
              .dir "C" (fsList [.file "notes.txt"]) ] none)
      demoExtract ⟨[], ⟨false, ""⟩⟩
    = (.ok 1 2 1,
        ⟨[("A", ⟨[1, 0], "celebs/A/folder.jpg"⟩)],
          ⟨false, "Processing complete! 1 celebrities processed, 2 skipped."⟩⟩) := by
  rfl

/-- C7: rebuild is idempotent over unchanged inputs — running the builder
a second time on the same root (same filesystem, same extractor results)
leaves the database exactly as it was after the first run. -/
theorem C7_rebuild_idempotent (rootPath : List String) (fs : RootFS)
    (extract : List String → Option Embedding) (st : AppState) :
    (process_celebrity_directory rootPath fs extract
        (process_celebrity_directory rootPath fs extract st).2).2.celebrity_database
      = (process_celebrity_directory rootPath fs extract st).2.celebrity_database := by
  cases fs with
  | missing => rfl
  | notDir => rfl
  | dir entries interrupt => cases interrupt <;> rfl

/-- C8: when the walk raises after validation succeeded (the iterator
yields `entries` and then fails with `msg`), the run aborts with a
structured error carrying `msg`, the status ends busy = false with the
error message, and the database keeps exactly the entries inserted
before the failure (no rollback). -/
theorem C8_midwalk_failure_keeps_inserted_db (rootPath : List String)
    (entries : List FSEntry) (msg : String)
    (extract : List String → Option Embedding) (st : AppState) :
    (process_celebrity_directory rootPath (.dir entries (some msg)) extract st).1
      = .err msg ∧
    (process_celebrity_directory rootPath
        (.dir entries (some msg)) extract st).2.processing_status
      = ⟨false, "Error: " ++ msg⟩ ∧
    (process_celebrity_directory rootPath
        (.dir entries (some msg)) extract st).2.celebrity_database
      = (buildEntries rootPath extract entries).db :=
  ⟨rfl, rfl, rfl⟩

/-- Shared helper: on the success path of `find_celebrity_matches`, the
query extraction succeeded and the result is the `top_k`-truncation of
the stable sort of the per-entry matches. -/
theorem rank_ok_eq {distFn : Embedding → Embedding → ℚ}
    {extract : String → Option Embedding} {st : AppState}
    {q : String} {k : Nat} {l : List MatchResult}
    (hl : (find_celebrity_matches distFn extract st q k).1 = .ok l) :
    ∃ emb, extract q = some emb ∧
      l = (((st.celebrity_database.map fun pr =>
            MatchResult.mk pr.1 (distFn emb pr.2.embedding)
              (similarity_score (distFn emb pr.2.embedding))
              pr.2.image_path).mergeSort
          fun a b => decide (a.distance ≤ b.distance)).take k) := by
  unfold find_celebrity_matches at hl
  split at hl
  · cases hl
  · split at hl
    · cases hl
    · rename_i emb heq
      refine ⟨emb, heq, ?_⟩
      injection hl with h
      exact h.symm

/-- C5: every match carries the score computed from its own distance by
`max(0, 100 - d*100)`; at `d = 0` the score is exactly 100, at `d = 1.2`
exactly 0 (clamped), at `d = 0.35` exactly 65. -/
theorem C5_score_from_distance (distFn : Embedding → Embedding → ℚ)
    (extract : String → Option Embedding) (st : AppState)
    (q : String) (k : Nat) (l : List MatchResult) (m : MatchResult)
    (hl : (find_celebrity_matches distFn extract st q k).1 = .ok l)
    (hm : m ∈ l) :
    m.similarity_score = similarity_score m.distance ∧
    similarity_score 0 = 100 ∧
    similarity_score (1.2 : ℚ) = 0 ∧
    similarity_score (0.35 : ℚ) = 65 := by
  obtain ⟨emb, -, rfl⟩ := rank_ok_eq hl
  have hm' := List.mem_of_mem_take hm
  rw [List.mem_mergeSort] at hm'
  obtain ⟨pr, -, rfl⟩ := List.mem_map.mp hm'
  exact ⟨rfl, by norm_num [similarity_score],
    by norm_num [similarity_score], by norm_num [similarity_score]⟩

/-- Witness for C5: a one-entry database at distance 1/2 from the query,
giving score 50. -/
theorem C5_score_from_distance_witness :
    (MatchResult.mk "A" (1/2) 50 "pa").similarity_score
      = similarity_score (MatchResult.mk "A" (1/2) 50 "pa").distance ∧
    similarity_score 0 = 100 ∧
    similarity_score (1.2 : ℚ) = 0 ∧
    similarity_score (0.35 : ℚ) = 65 :=
  C5_score_from_distance (fun _ _ => 1/2) (fun _ => some [0])
    ⟨[("A", ⟨[0], "pa"⟩)], ⟨false, ""⟩⟩ "q.jpg" 10
    [MatchResult.mk "A" (1/2) 50 "pa"] (MatchResult.mk "A" (1/2) 50 "pa")
    (by simp [find_celebrity_matches]; norm_num [similarity_score])
    (by simp)

/-- C2: on a non-empty database and an extracted query embedding,
ranking succeeds with a list of length `min top_k |database|`, sorted by
non-decreasing distance, each element carrying a database entry's name,
its distance to the query, the derived similarity score, and the entry's
source image path. -/
theorem C2_rank_sorted_sized (distFn : Embedding → Embedding → ℚ)
    (extract : String → Option Embedding) (st : AppState)
    (q : String) (top_k : Nat) (emb : Embedding)
    (hne : st.celebrity_database ≠ [])
    (hx : extract q = some emb) :
    ∃ l, (find_celebrity_matches distFn extract st q top_k).1 = .ok l ∧
      l.length = min top_k st.celebrity_database.length ∧
      l.Pairwise (fun a b => a.distance ≤ b.distance) ∧
      ∀ m ∈ l, ∃ pr ∈ st.celebrity_database,
        m.name = pr.1 ∧
        m.distance = distFn emb pr.2.embedding ∧
        m.similarity_score = similarity_score (distFn emb pr.2.embedding) ∧
        m.image_path = pr.2.image_path := by
  have hne' : st.celebrity_database.isEmpty = false := by
    simpa [List.isEmpty_iff] using hne
  refine ⟨(((st.celebrity_database.map fun pr =>
      MatchResult.mk pr.1 (distFn emb pr.2.embedding)
        (similarity_score (distFn emb pr.2.embedding))
        pr.2.image_path).mergeSort
      fun a b => decide (a.distance ≤ b.distance)).take top_k),
      ?_, ?_, ?_, ?_⟩
  · unfold find_celebrity_matches
    rw [hne', hx]
    rfl
  · rw [List.length_take, List.length_mergeSort, List.length_map]
  · have hsorted : (((st.celebrity_database.map fun pr =>
          MatchResult.mk pr.1 (distFn emb pr.2.embedding)
            (similarity_score (distFn emb pr.2.embedding))
            pr.2.image_path).mergeSort
        fun a b => decide (a.distance ≤ b.distance)).Pairwise
        fun a b => decide (a.distance ≤ b.distance)) :=
      List.sorted_mergeSort
        (fun a b c hab hbc => by
          simp only [decide_eq_true_eq] at *
          exact le_trans hab hbc)
        (fun a b => by
          simp only [Bool.or_eq_true, decide_eq_true_eq]
          exact le_total a.distance b.distance) _
    have htake := hsorted.sublist (List.take_sublist top_k _)
    exact htake.imp fun hab => by simpa using hab
  · intro m hm
    have hm' := List.mem_of_mem_take hm
    rw [List.mem_mergeSort] at hm'
    obtain ⟨pr, hpr, rfl⟩ := List.mem_map.mp hm'
    exact ⟨pr, hpr, rfl, rfl, rfl, rfl⟩

/-- Witness for C2: a two-entry database, distances read off the stored
embeddings, `top_k = 1`. -/
theorem C2_rank_sorted_sized_witness :
    ∃ l, (find_celebrity_matches (fun _ e => e.headI) (fun _ => some [0])
        ⟨[("A", ⟨[1], "pa"⟩), ("B", ⟨[2], "pb"⟩)], ⟨false, ""⟩⟩ "q.jpg" 1).1
        = .ok l ∧
      l.length = min 1
        (⟨[("A", ⟨[1], "pa"⟩), ("B", ⟨[2], "pb"⟩)],
          ⟨false, ""⟩⟩ : AppState).celebrity_database.length ∧
      l.Pairwise (fun a b => a.distance ≤ b.distance) ∧
      ∀ m ∈ l, ∃ pr ∈ (⟨[("A", ⟨[1], "pa"⟩), ("B", ⟨[2], "pb"⟩)],
          ⟨false, ""⟩⟩ : AppState).celebrity_database,
        m.name = pr.1 ∧
        m.distance = (fun (_ : Embedding) (e : Embedding) => e.headI) [0] pr.2.embedding ∧
        m.similarity_score
          = similarity_score ((fun (_ : Embedding) (e : Embedding) => e.headI) [0] pr.2.embedding) ∧
        m.image_path = pr.2.image_path :=
  C2_rank_sorted_sized (fun _ e => e.headI) (fun _ => some [0])
    ⟨[("A", ⟨[1], "pa"⟩), ("B", ⟨[2], "pb"⟩)], ⟨false, ""⟩⟩ "q.jpg" 1 [0]
    (by simp) rfl

/-- `find?` returns the head of the filtered list. -/
theorem find?_eq_head?_filter {α : Type} (p : α → Bool) (l : List α) :
    l.find? p = (l.filter p).head? := by
  induction l with
  | nil => rfl
  | cons a t ih =>
    cases h : p a with
    | true =>
      rw [List.find?_cons_of_pos _ h, List.filter_cons_of_pos h]
      rfl
    | false =>
      rw [List.find?_cons_of_neg _ (by simp [h]),
        List.filter_cons_of_neg (by simp [h]), ih]

/-- The nested first-hit loop over the walk equals mapping the head of
the flattened, filtered candidate list to its full path. -/
theorem findSome?_flatMap_filter (p : String → Bool)
    (l : List (List String × List String)) :
    (l.findSome? fun pr => (pr.2.find? p).map fun f => pr.1 ++ [f])
      = (((l.flatMap fun pr => pr.2.map fun f => (pr.1, f)).filter
          fun x => p x.2).head?).map fun x => x.1 ++ [x.2] := by
  induction l with
  | nil => rfl
  | cons hd t ih =>
    rw [List.findSome?_cons, List.flatMap_cons, List.filter_append,
      List.head?_append]
    have hfil : ((hd.2.map fun f => (hd.1, f)).filter fun x => p x.2)
        = (hd.2.filter p).map fun f => (hd.1, f) := by
      rw [List.filter_map]
      rfl
    rw [hfil, List.head?_map, find?_eq_head?_filter]
    cases hh : (hd.2.filter p).head? with
    | none => exact ih
    | some f => rfl

/-- C4: the locator returns `folder.jpg` from directly inside the
identity directory whenever that plain file exists (no matter what the
subtree holds); otherwise it returns the first `*-poster.jpg` file in
the recursive walk order; and when neither exists it returns none. -/
theorem C4_locator_two_stage_policy (actorPath : List String)
    (children : FSList) :
    (hasFolderJpg children = true →
      find_actor_image actorPath children
        = some (actorPath ++ ["folder.jpg"])) ∧
    (hasFolderJpg children = false →
      find_actor_image actorPath children
        = (posterFiles actorPath children).head?.map fun x => x.1 ++ [x.2]) ∧
    (hasFolderJpg children = false → posterFiles actorPath children = [] →
      find_actor_image actorPath children = none) := by
  have hstage2 : hasFolderJpg children = false →
      find_actor_image actorPath children
        = (posterFiles actorPath children).head?.map fun x => x.1 ++ [x.2] := by
    intro h
    unfold find_actor_image
    rw [h]
    simp only [Bool.false_eq_true, if_false]
    rw [findSome?_flatMap_filter]
    rfl
  refine ⟨fun h => ?_, hstage2, fun h hp => ?_⟩
  · unfold find_actor_image
    rw [h]
    rfl
  · rw [hstage2 h, hp]
    rfl

/-- Witness for C4: stage-1 precedence over a nested poster, stage-2 on
a subtree with only a nested poster, and the none case. -/
theorem C4_locator_two_stage_policy_witness :
    find_actor_image ["r", "A"]
        (fsList [.dir "covers" (fsList [.file "x-poster.jpg"]),
                 .file "folder.jpg"])
      = some ["r", "A", "folder.jpg"] ∧
    find_actor_image ["r", "B"]
        (fsList [.file "a.txt",
                 .dir "covers" (fsList [.file "b.jpg", .file "x-poster.jpg"])])
      = (posterFiles ["r", "B"]
          (fsList [.file "a.txt",
                   .dir "covers" (fsList [.file "b.jpg", .file "x-poster.jpg"])])).head?.map
          (fun x => x.1 ++ [x.2]) ∧
    find_actor_image ["r", "C"] (fsList [.file "a.txt"]) = none :=
  ⟨(C4_locator_two_stage_policy ["r", "A"]
      (fsList [.dir "covers" (fsList [.file "x-poster.jpg"]),
               .file "folder.jpg"])).1 rfl,
   (C4_locator_two_stage_policy ["r", "B"]
      (fsList [.file "a.txt",
               .dir "covers" (fsList [.file "b.jpg", .file "x-poster.jpg"])])).2.1 rfl,
   (C4_locator_two_stage_policy ["r", "C"]
      (fsList [.file "a.txt"])).2.2 rfl rfl⟩

end Lookalike
